import Mathlib

/-!
Verification of the `contralog` crate (composable logging combinators).

A Rust logger is a value with a method `log(&mut self, item: I) -> Result<(), E>`.
We embed it shallowly as a state-transition function: a `Logger S I E` carries a
`log` function taking the current state and an item and returning the new state
together with `Except E Unit` (`.ok ()` for Rust's `Ok(())`, `.error e` for `Err(e)`).
Each combinator of the crate becomes a function on such loggers; the state of a
combinator is the product of the states of the loggers it wraps.  Rust's `Clone`
on the item type is passed explicitly as a function `clone : I → I`, and the
`Extend` trait bound of `extender` as an explicit `ext : C → List I → C`
(a Rust iterator is embedded as the list of items it yields).
-/

/-- The `Logger` trait: `log` consumes one item, mutates the state and reports
success or a typed failure. -/
structure Logger (S I E : Type) where
  log : S → I → S × Except E Unit

/-- `Logger::by_ref`: the blanket `impl Logger for &mut L` delegates
`(**self).log(item)`; item and error types are those of `L`. -/
def Logger.by_ref {S I E : Type} (l : Logger S I E) : Logger S I E :=
  ⟨fun s item => l.log s item⟩

/-- `Chain` (from `Logger::chain`): `self.fst.log(item.clone())?; self.snd.log(item)`.
On a failure of `fst` the `?` operator returns that failure at once, leaving
`snd` untouched; otherwise `snd` receives the original (un-cloned) item and its
result is returned. -/
def Logger.chain {S₁ S₂ I E : Type} (fst : Logger S₁ I E) (snd : Logger S₂ I E)
    (clone : I → I) : Logger (S₁ × S₂) I E :=
  ⟨fun s item =>
    let r₁ := fst.log s.1 (clone item)
    match r₁.2 with
    | .error e => ((r₁.1, s.2), .error e)
    | .ok _ =>
      let r₂ := snd.log s.2 item
      ((r₁.1, r₂.1), r₂.2)⟩

/-- `empty`: a logger that ignores all input and returns `Ok(())`. -/
def empty (I E : Type) : Logger Unit I E :=
  ⟨fun s _ => (s, .ok ())⟩

/-- `Extender` (from `extender`): `self.container.extend(iter::once(item))`,
then `Ok(())`; the error type is `Infallible`, embedded as Lean's `Empty`. -/
def extender {C I : Type} (ext : C → List I → C) : Logger C I Empty :=
  ⟨fun c item => (ext c [item], .ok ())⟩

/-- `Filter` (from `Logger::filter`): if the predicate holds of the item,
delegate to the wrapped logger; otherwise return `Ok(())`. -/
def Logger.filter {S I E : Type} (inner : Logger S I E) (f : I → Bool) :
    Logger S I E :=
  ⟨fun s item => if f item then inner.log s item else (s, .ok ())⟩

/-- `Map` (from `Logger::map`): apply `f` to the item, then delegate. -/
def Logger.map {S I E B : Type} (inner : Logger S I E) (f : B → I) :
    Logger S B E :=
  ⟨fun s item => inner.log s (f item)⟩

/-- `Safe` (from `Logger::safe`): delegate, drop the inner result, report
`Ok(())` at a caller-chosen error type `E`. -/
def Logger.safe {S I E₀ : Type} (inner : Logger S I E₀) (E : Type) :
    Logger S I E :=
  ⟨fun s item => ((inner.log s item).1, .ok ())⟩

/-- Run a logger over a list of items one at a time, threading the state
(results are reported per call; the state evolution is what we track). -/
def logAll {S I E : Type} (l : Logger S I E) : S → List I → S
  | s, [] => s
  | s, x :: xs => logAll l (l.log s x).1 xs

/-- The `extender` instantiated at a `Vec`-like sequence collection: Rust's
`Extend for Vec` appends every yielded item at the end. -/
def listExtender (I : Type) : Logger (List I) I Empty :=
  extender (fun c l => c ++ l)

/-- A concrete logger used to witness the universally quantified theorems:
it records items below 5 and fails with the item itself otherwise. -/
def smallRecorder : Logger (List Nat) Nat Nat :=
  ⟨fun s i => if i < 5 then (s ++ [i], .ok ()) else (s, .error i)⟩

/-! ## Theorems -/

/-- C3: invoking `Map(L, f)` with `x` is observably equivalent to invoking the
wrapped logger `L` directly with `f x`: same returned result, same final
state. -/
theorem map_log_substitution {S I E B : Type} (L : Logger S I E) (f : B → I)
    (s : S) (x : B) :
    (L.map f).log s x = L.log s (f x) :=
  rfl

/-- C8: a by-reference handle to `L` is a logger with the same item and error
types, and logging `x` through it returns the same result and final state as
logging on `L` directly. -/
theorem by_ref_log_transparent {S I E : Type} (L : Logger S I E) (s : S)
    (x : I) :
    (L.by_ref).log s x = L.log s x :=
  rfl

/-- C10: after `Safe(L).log x` the wrapped logger's state is exactly the state
`L` would have after `L.log x` directly; only the reported result (and its
type) changes. -/
theorem safe_log_frame {S I E₀ : Type} (L : Logger S I E₀) (E : Type) (s : S)
    (x : I) :
    ((L.safe E).log s x).1 = (L.log s x).1 :=
  rfl

/-- C4: `Safe(L).log x` always returns success, whatever `L` does, and the
item is still delegated to `L`: the inner state is the state after `L.log x`. -/
theorem safe_log_total {S I E₀ : Type} (L : Logger S I E₀) (E : Type) (s : S)
    (x : I) :
    ((L.safe E).log s x).2 = Except.ok () ∧
      ((L.safe E).log s x).1 = (L.log s x).1 :=
  ⟨rfl, rfl⟩

/-- C1: `Chain(A, B)` delegates a value equal to `x` to `A` first (`A` receives
`clone x = x`); if `A` fails with `e` the call returns `e` at once and `B` is
untouched; if `A` succeeds, `B` receives `x` and the call returns `B`'s result
and state unchanged. -/
theorem chain_log_short_circuit {S₁ S₂ I E : Type} (A : Logger S₁ I E)
    (B : Logger S₂ I E) (clone : I → I) (x : I) (hclone : clone x = x)
    (s₁ : S₁) (s₂ : S₂) :
    (∀ e, (A.log s₁ x).2 = Except.error e →
        (A.chain B clone).log (s₁, s₂) x = (((A.log s₁ x).1, s₂), Except.error e)) ∧
    ((A.log s₁ x).2 = Except.ok () →
        (A.chain B clone).log (s₁, s₂) x =
          (((A.log s₁ x).1, (B.log s₂ x).1), (B.log s₂ x).2)) := by
  constructor
  · intro e he
    simp [Logger.chain, hclone, he]
  · intro hok
    simp [Logger.chain, hclone, hok]

/-- Witness for C1: a failing first logger short-circuits (`7` is rejected by
`smallRecorder`, so the second copy stays empty and the error surfaces). -/
theorem chain_log_short_circuit_witness :
    (smallRecorder.chain smallRecorder id).log ([], []) 7 =
      (([], []), Except.error 7) := by
  have h := (chain_log_short_circuit smallRecorder smallRecorder id 7 (by decide)
    [] []).1 7 (by simp [smallRecorder])
  simpa [smallRecorder] using h

/-- C2: `Filter(L, p)` delegates `x` to `L` exactly when `p x` is true and then
returns `L`'s result; when `p x` is false the call returns success and leaves
`L`'s state untouched. -/
theorem filter_log_gating {S I E : Type} (L : Logger S I E) (f : I → Bool)
    (s : S) (x : I) :
    (f x = true → (L.filter f).log s x = L.log s x) ∧
    (f x = false → (L.filter f).log s x = (s, Except.ok ())) := by
  constructor <;> intro h <;> simp [Logger.filter, h]

/-- Witness for C2: filtering by evenness delegates `2` and drops `3`. -/
theorem filter_log_gating_witness :
    (smallRecorder.filter (fun i => decide (i % 2 = 0))).log [] 2 =
        smallRecorder.log [] 2 ∧
      (smallRecorder.filter (fun i => decide (i % 2 = 0))).log [] 3 =
        ([], Except.ok ()) :=
  ⟨(filter_log_gating smallRecorder (fun i => decide (i % 2 = 0)) [] 2).1
      (by decide),
   (filter_log_gating smallRecorder (fun i => decide (i % 2 = 0)) [] 3).2
      (by decide)⟩

/-- C9: `Chain::log` applies `clone` once and routes the clone to the first
logger — whose state reflects `clone x` even when it fails and the second is
never invoked — while the second logger, when invoked, receives the original
un-cloned `x`. -/
theorem chain_clone_routing {S₁ S₂ I E : Type} (A : Logger S₁ I E)
    (B : Logger S₂ I E) (clone : I → I) (x : I) (s₁ : S₁) (s₂ : S₂) :
    ((A.chain B clone).log (s₁, s₂) x).1.1 = (A.log s₁ (clone x)).1 ∧
    (∀ e, (A.log s₁ (clone x)).2 = Except.error e →
        (A.chain B clone).log (s₁, s₂) x =
          (((A.log s₁ (clone x)).1, s₂), Except.error e)) ∧
    ((A.log s₁ (clone x)).2 = Except.ok () →
        (A.chain B clone).log (s₁, s₂) x =
          (((A.log s₁ (clone x)).1, (B.log s₂ x).1), (B.log s₂ x).2)) := by
  refine ⟨?_, fun e he => by simp [Logger.chain, he], fun hok => by
    simp [Logger.chain, hok]⟩
  cases hA : (A.log s₁ (clone x)).2 with
  | error e => simp [Logger.chain, hA]
  | ok u => simp [Logger.chain, hA]

/-- Witness for C9: with the non-equality-preserving duplication `n ↦ n + 1`,
the first logger records the copy `4` while the second records the original
`3`. -/
theorem chain_clone_routing_witness :
    (smallRecorder.chain smallRecorder (fun n => n + 1)).log ([], []) 3 =
      (([4], [3]), Except.ok ()) := by
  have h := (chain_clone_routing smallRecorder smallRecorder (fun n => n + 1)
    3 [] []).2.2 (by simp [smallRecorder])
  simpa [smallRecorder] using h

/-- C6: `empty` returns success with no effect, and chaining any logger `C`
with `empty` on either side is observably equivalent (in `C`'s state and the
returned result) to invoking `C` alone, provided duplication preserves the
item. -/
theorem empty_log_neutral {S I E : Type} (C : Logger S I E) (clone : I → I)
    (x : I) (hclone : clone x = x) (s : S) :
    (empty I E).log () x = ((), Except.ok ()) ∧
    (C.chain (empty I E) clone).log (s, ()) x =
        (((C.log s x).1, ()), (C.log s x).2) ∧
    ((empty I E).chain C clone).log ((), s) x =
        (((), (C.log s x).1), (C.log s x).2) := by
  refine ⟨rfl, ?_, ?_⟩
  · cases hC : (C.log s x).2 with
    | error e => simp [Logger.chain, empty, hclone, hC]
    | ok u => cases u; simp [Logger.chain, empty, hclone, hC]
  · simp [Logger.chain, empty]

/-- Witness for C6: chaining `smallRecorder` with `empty` on either side logs
`2` exactly as `smallRecorder` alone would. -/
theorem empty_log_neutral_witness :
    (smallRecorder.chain (empty Nat Nat) id).log ([], ()) 2 =
        (([2], ()), Except.ok ()) ∧
      ((empty Nat Nat).chain smallRecorder id).log ((), []) 2 =
        (((), [2]), Except.ok ()) := by
  have h := empty_log_neutral smallRecorder id 2 (by decide) []
  exact ⟨h.2.1.trans (by simp [smallRecorder]),
    h.2.2.trans (by simp [smallRecorder])⟩

/-- Running the list extender from any start appends the logged items. -/
theorem logAll_listExtender {I : Type} (c : List I) (xs : List I) :
    logAll (listExtender I) c xs = c ++ xs := by
  induction xs generalizing c with
  | nil => simp [logAll]
  | cons x xs ih =>
    simp only [logAll, ih]
    simp [listExtender, extender]

/-- C5: logging `x1, …, xn` one at a time into an extender over an initially
empty list yields exactly `[x1, …, xn]` in order, and each single call appends
exactly its one item at the end (so the collection grows monotonically). -/
theorem extender_collects_in_order {I : Type} (xs : List I) :
    logAll (listExtender I) [] xs = xs ∧
      ∀ (c : List I) (x : I), ((listExtender I).log c x).1 = c ++ [x] :=
  ⟨(logAll_listExtender [] xs).trans (by simp), fun c x => rfl⟩

/-- C7: the extender's error type is the uninhabited `Infallible` (Lean's
`Empty`), every call returns success, and no value of the result type carries
a failure at all. -/
theorem extender_log_infallible {C I : Type} (ext : C → List I → C) :
    (∀ (c : C) (x : I), ((extender ext).log c x).2 = Except.ok ()) ∧
      ∀ r : Except Empty Unit, r = Except.ok () := by
  refine ⟨fun c x => rfl, fun r => ?_⟩
  match r with
  | .ok u => cases u; rfl
  | .error e => exact e.elim
